import Mathlib

/-! Laser pointer toy for cats: the configuration vocabulary of `types.h`

A shallow embedding of `src/types.h`: the two enumerations, `presetName`, and
the three aggregate types with their default member initialisers.

Conventions of the embedding
* `uint8_t` and `uint16_t` values are natural numbers; a constant expression
  that initialises one is reduced modulo `2 ^ 8` or `2 ^ 16`, and a function that
  takes one is studied under the bound `p < 256`.
* `int` values are mathematical integers (`Int`).  Every `int` constant of the
  header is below `2 ^ 15`, so it means the same on every Arduino target.
* `float speedDegPerSec = 70.0f`: the literal `70` is exactly representable in
  binary32, so the stored value is the rational number `70`; the field is a `ℚ`.
* `DaySchedule2 days[7]` is a function on `Fin 7`.
-/

namespace Laserpunkt

/-! ## Enumerations -/

/-- The enumeration `MotionMode : uint8_t`. -/
inductive MotionMode where
  | MODE_RANDOM
  | MODE_ORBIT
  | MODE_SCAN
  | MODE_SMART
  deriving DecidableEq, Repr

/-- Underlying `uint8_t` value of a `MotionMode` enumerator. -/
def MotionMode.toNat : MotionMode → Nat
  | .MODE_RANDOM => 0
  | .MODE_ORBIT => 1
  | .MODE_SCAN => 2
  | .MODE_SMART => 3

/-- Enumerator `PRESET_CUSTOM = 0` of `PresetId : uint8_t`. -/
def PRESET_CUSTOM : Nat := 0

/-- Enumerator `PRESET_SOFT = 1` of `PresetId : uint8_t`. -/
def PRESET_SOFT : Nat := 1

/-- Enumerator `PRESET_NORMAL = 2` of `PresetId : uint8_t`. -/
def PRESET_NORMAL : Nat := 2

/-- Enumerator `PRESET_WILD = 3` of `PresetId : uint8_t`. -/
def PRESET_WILD : Nat := 3

/-- Enumerator `PRESET_SMART = 4` of `PresetId : uint8_t`. -/
def PRESET_SMART : Nat := 4

/-- The function `presetName(uint8_t p)`: a `switch` with four `case` labels and a
`default`.  The labels are tested in the order in which the source lists them. -/
def presetName (p : Nat) : String :=
  if p = PRESET_SOFT then "soft"
  else if p = PRESET_NORMAL then "normal"
  else if p = PRESET_WILD then "wild"
  else if p = PRESET_SMART then "smart"
  else "custom"

/-! ## Aggregates and their default member initialisers -/

/-- The aggregate `struct TimeWindow`; each default is the member initialiser of the
source, the `uint16_t` ones reduced modulo `2 ^ 16`. -/
structure TimeWindow where
  startMin : Nat := (18 * 60) % 2 ^ 16
  stopMin : Nat := (20 * 60) % 2 ^ 16
  enabled : Bool := false
  preset : Nat := PRESET_CUSTOM

/-- The aggregate `struct DaySchedule2`: two windows and the per-day switch. -/
structure DaySchedule2 where
  a : TimeWindow := {}
  b : TimeWindow := {}
  dayEnabled : Bool := true

/-- The aggregate `struct Config` with the member initialisers of the source. -/
structure Config where
  panMin : Int := 35
  panMax : Int := 145
  tiltMin : Int := 45
  tiltMax : Int := 135
  edgeMarginDeg : Int := 6
  parkPan : Int := 90
  parkTilt : Int := 90
  speedDegPerSec : ℚ := 70
  dwellMsMin : Nat := 150 % 2 ^ 16
  dwellMsMax : Nat := 900 % 2 ^ 16
  mode : MotionMode := MotionMode.MODE_RANDOM
  laserEnabled : Bool := true
  runEnabled : Bool := false
  sessionMaxMin : Nat := 10 % 2 ^ 16
  cooldownMin : Nat := 2 % 2 ^ 16
  days : Fin 7 → DaySchedule2 := fun _ => {}

/-- A default-constructed `TimeWindow` (`TimeWindow w;`). -/
def defaultTimeWindow : TimeWindow := {}

/-- A default-constructed `DaySchedule2`. -/
def defaultDaySchedule2 : DaySchedule2 := {}

/-- A default-constructed `Config` (`Config cfg;`). -/
def defaultConfig : Config := {}

/-- A `Config` whose only change from the defaults is `edgeMarginDeg = 45`: on the
tilt axis `45 * 2 = 135 - 45`, so the margin invariant fails there by equality. -/
def marginFortyFive : Config := { edgeMarginDeg := 45 }

/-! ## Parts of the control core that the header does not contain -/

/-- Modelled from the spec: the validity invariants of `Config` (§3, and the
`ConfigInvalid` taxonomy of §7); the check itself belongs to the configuration
loader, which is not in `src/`.  Bounds in order on both axes, a non-negative
margin with `margin*2 < (max-min)` on both axes, a positive nominal speed and
`dwellMsMin ≤ dwellMsMax`. -/
def Config.Valid (c : Config) : Prop :=
  c.panMin < c.panMax ∧ c.tiltMin < c.tiltMax ∧ 0 ≤ c.edgeMarginDeg ∧
  c.edgeMarginDeg * 2 < c.panMax - c.panMin ∧
  c.edgeMarginDeg * 2 < c.tiltMax - c.tiltMin ∧
  0 < c.speedDegPerSec ∧ c.dwellMsMin ≤ c.dwellMsMax

instance (c : Config) : Decidable c.Valid := by
  unfold Config.Valid
  infer_instance

/-- Modelled from the spec: the SafetyClamp function `clamp(pan,tilt,config)` of
§4.4, which is not in `src/`: "restricting `pan'` to `[panMin+margin, panMax-margin]`
and `tilt'` to `[tiltMin+margin, tiltMax-margin]`, simple min/max clipping (no
remapping/scaling)".  Each axis is raised to the lower bound and then lowered to the
upper bound. -/
def clamp (pan tilt : Int) (config : Config) : Int × Int :=
  (min (max pan (config.panMin + config.edgeMarginDeg)) (config.panMax - config.edgeMarginDeg),
   min (max tilt (config.tiltMin + config.edgeMarginDeg))
     (config.tiltMax - config.edgeMarginDeg))

/-- Modelled from the spec: the window test of the ScheduleResolver (§4.1), which is
not in `src/`: a window matches when `enabled` and `startMin ≤ minuteOfDay < stopMin`,
or, if `stopMin < startMin`, when `minuteOfDay ≥ startMin || minuteOfDay < stopMin`. -/
def windowMatches (w : TimeWindow) (minuteOfDay : Nat) : Bool :=
  w.enabled &&
    (if w.stopMin < w.startMin then
      decide (w.startMin ≤ minuteOfDay) || decide (minuteOfDay < w.stopMin)
    else
      decide (w.startMin ≤ minuteOfDay) && decide (minuteOfDay < w.stopMin))

/-- Modelled from the spec: the `active` verdict of `resolve(weekday, minuteOfDay,
config)` (§4.1), which is not in `src/`: inactive if `!config.runEnabled` or
`!days[weekday].dayEnabled`, else active exactly when window `a` or window `b`
matches. -/
def resolveActive (weekday : Fin 7) (minuteOfDay : Nat) (config : Config) : Bool :=
  if !config.runEnabled || !(config.days weekday).dayEnabled then false
  else windowMatches (config.days weekday).a minuteOfDay ||
    windowMatches (config.days weekday).b minuteOfDay

/-! ## `presetName` -/

/-- C1: for every 8-bit value `p`, `presetName p` is `"soft"` at `1 = PRESET_SOFT`,
`"normal"` at `2 = PRESET_NORMAL`, `"wild"` at `3 = PRESET_WILD`, `"smart"` at
`4 = PRESET_SMART`, and `"custom"` at every other value (`0 = PRESET_CUSTOM` and
`5..255`); the result is always one of these five strings. -/
theorem presetName_table (p : Nat) (hp : p < 256) :
    (PRESET_CUSTOM = 0 ∧ PRESET_SOFT = 1 ∧ PRESET_NORMAL = 2 ∧ PRESET_WILD = 3 ∧
      PRESET_SMART = 4) ∧
    (p = 1 → presetName p = "soft") ∧
    (p = 2 → presetName p = "normal") ∧
    (p = 3 → presetName p = "wild") ∧
    (p = 4 → presetName p = "smart") ∧
    (p = 0 ∨ (5 ≤ p ∧ p ≤ 255) → presetName p = "custom") ∧
    (presetName p = "soft" ∨ presetName p = "normal" ∨ presetName p = "wild" ∨
      presetName p = "smart" ∨ presetName p = "custom") := by
  refine ⟨⟨rfl, rfl, rfl, rfl, rfl⟩, ?_, ?_, ?_, ?_, ?_, ?_⟩
  · rintro rfl; rfl
  · rintro rfl; rfl
  · rintro rfl; rfl
  · rintro rfl; rfl
  · intro h
    have h1 : p ≠ 1 := by omega
    have h2 : p ≠ 2 := by omega
    have h3 : p ≠ 3 := by omega
    have h4 : p ≠ 4 := by omega
    simp [presetName, PRESET_SOFT, PRESET_NORMAL, PRESET_WILD, PRESET_SMART, h1, h2, h3, h4]
  · unfold presetName
    split_ifs <;> simp

/-- Witness for C1 at `p = 200`, an 8-bit value outside the enumeration. -/
theorem presetName_table_witness : (200 : Nat) < 256 ∧ presetName 200 = "custom" :=
  ⟨by decide, (presetName_table 200 (by decide)).2.2.2.2.2.1 (Or.inr ⟨by decide, by decide⟩)⟩

/-- C8: `presetName` is closed and name-distinguishing: for every 8-bit `p` the
result is one of `"custom"`, `"soft"`, `"normal"`, `"wild"`, `"smart"`, and for preset
ids `p`, `q` in `{0,1,2,3,4}` equal names force `p = q`. -/
theorem presetName_closed_injective (p q : Nat) (hp : p < 256) (hq : q < 256) :
    presetName p ∈ ["custom", "soft", "normal", "wild", "smart"] ∧
    (p ≤ PRESET_SMART → q ≤ PRESET_SMART → presetName p = presetName q → p = q) := by
  constructor
  · unfold presetName
    split_ifs <;> simp
  · intro h1 h2
    simp only [PRESET_SMART] at h1 h2
    interval_cases p <;> interval_cases q <;>
      simp [presetName, PRESET_SOFT, PRESET_NORMAL, PRESET_WILD, PRESET_SMART]

/-- Witness for C8 at `p = 3`, `q = 4`: two preset ids with distinct names. -/
theorem presetName_closed_injective_witness :
    (3 : Nat) < 256 ∧ (4 : Nat) < 256 ∧ presetName 3 ≠ presetName 4 :=
  ⟨by decide, by decide, fun h =>
    absurd ((presetName_closed_injective 3 4 (by decide) (by decide)).2
      (by decide) (by decide) h) (by decide)⟩

/-! ## Default values -/

/-- C2: the default-constructed `Config` satisfies every validity invariant:
`panMin < panMax`, `tiltMin < tiltMax`, `edgeMarginDeg ≥ 0`, `edgeMarginDeg*2` below
the width of both axes, `speedDegPerSec > 0` and `dwellMsMin ≤ dwellMsMax`. -/
theorem defaultConfig_invariants :
    defaultConfig.panMin < defaultConfig.panMax ∧
    defaultConfig.tiltMin < defaultConfig.tiltMax ∧
    0 ≤ defaultConfig.edgeMarginDeg ∧
    defaultConfig.edgeMarginDeg * 2 < defaultConfig.panMax - defaultConfig.panMin ∧
    defaultConfig.edgeMarginDeg * 2 < defaultConfig.tiltMax - defaultConfig.tiltMin ∧
    0 < defaultConfig.speedDegPerSec ∧
    defaultConfig.dwellMsMin ≤ defaultConfig.dwellMsMax := by
  refine ⟨?_, ?_, ?_, ?_, ?_, ?_, ?_⟩ <;> norm_num [defaultConfig]

/-- C7: the default-constructed `TimeWindow` has `startMin = 1080 = 18*60` and
`stopMin = 1200 = 20*60`, both inside `[0, 1440)`, with `startMin < stopMin`. -/
theorem defaultTimeWindow_minutes :
    defaultTimeWindow.startMin = 1080 ∧ (1080 : Nat) = 18 * 60 ∧
    defaultTimeWindow.stopMin = 1200 ∧ (1200 : Nat) = 20 * 60 ∧
    0 ≤ defaultTimeWindow.startMin ∧ defaultTimeWindow.startMin < 1440 ∧
    0 ≤ defaultTimeWindow.stopMin ∧ defaultTimeWindow.stopMin < 1440 ∧
    defaultTimeWindow.startMin < defaultTimeWindow.stopMin := by
  refine ⟨?_, ?_, ?_, ?_, ?_, ?_, ?_, ?_, ?_⟩ <;> decide

/-- C9: the default-constructed `Config` permits no activity: `runEnabled` is false,
and on every weekday both windows have `enabled = false` and `preset = PRESET_CUSTOM`
while `dayEnabled` is true.  None of these fields depends on the minute of day, so the
master switch is off and no window is enabled at every weekday and minute. -/
theorem defaultConfig_permits_nothing :
    defaultConfig.runEnabled = false ∧
    ∀ d : Fin 7,
      (defaultConfig.days d).a.enabled = false ∧
      (defaultConfig.days d).a.preset = PRESET_CUSTOM ∧
      (defaultConfig.days d).b.enabled = false ∧
      (defaultConfig.days d).b.preset = PRESET_CUSTOM ∧
      (defaultConfig.days d).dayEnabled = true :=
  ⟨rfl, fun _ => ⟨rfl, rfl, rfl, rfl, rfl⟩⟩

/-- Under the resolver of §4.1 the default `Config` is inactive on every weekday at
every minute of day. -/
theorem resolveActive_defaultConfig (d : Fin 7) (m : Nat) :
    resolveActive d m defaultConfig = false := by
  simp [resolveActive, defaultConfig]

/-! ## The clamp range `[min + margin, max - margin]` -/

/-- C3: for every `Config` whose bounds are in order and whose margin is
non-negative with `edgeMarginDeg*2 < max - min` on both axes, the clamp range of
each axis is in order and inside the mechanical bounds:
`min ≤ min + margin < max - margin ≤ max`. -/
theorem clampRange_ordered (c : Config)
    (_hpan : c.panMin < c.panMax) (_htilt : c.tiltMin < c.tiltMax)
    (hmargin : 0 ≤ c.edgeMarginDeg)
    (hpanMargin : c.edgeMarginDeg * 2 < c.panMax - c.panMin)
    (htiltMargin : c.edgeMarginDeg * 2 < c.tiltMax - c.tiltMin) :
    (c.panMin ≤ c.panMin + c.edgeMarginDeg ∧
      c.panMin + c.edgeMarginDeg < c.panMax - c.edgeMarginDeg ∧
      c.panMax - c.edgeMarginDeg ≤ c.panMax) ∧
    (c.tiltMin ≤ c.tiltMin + c.edgeMarginDeg ∧
      c.tiltMin + c.edgeMarginDeg < c.tiltMax - c.edgeMarginDeg ∧
      c.tiltMax - c.edgeMarginDeg ≤ c.tiltMax) := by
  refine ⟨⟨?_, ?_, ?_⟩, ⟨?_, ?_, ?_⟩⟩ <;> omega

/-- Witness for C3 at the default `Config`: its pan range is `35 ≤ 41 < 139 ≤ 145`. -/
theorem clampRange_ordered_witness :
    defaultConfig.panMin + defaultConfig.edgeMarginDeg <
      defaultConfig.panMax - defaultConfig.edgeMarginDeg :=
  (clampRange_ordered defaultConfig (by decide) (by decide) (by decide) (by decide)
    (by decide)).1.2.1

/-- C4, as stated, fails: in `marginFortyFive` the tilt axis has `min < max`, a
non-negative margin and `edgeMarginDeg*2 = tiltMax - tiltMin`, so the invariant
`edgeMarginDeg*2 < tiltMax - tiltMin` does not hold, yet the angle `90` lies in
`[tiltMin + edgeMarginDeg, tiltMax - edgeMarginDeg]`. -/
theorem clampRange_nonempty_at_equality :
    marginFortyFive.tiltMin < marginFortyFive.tiltMax ∧
    0 ≤ marginFortyFive.edgeMarginDeg ∧
    ¬ (marginFortyFive.edgeMarginDeg * 2 <
        marginFortyFive.tiltMax - marginFortyFive.tiltMin) ∧
    (marginFortyFive.tiltMin + marginFortyFive.edgeMarginDeg ≤ 90 ∧
      90 ≤ marginFortyFive.tiltMax - marginFortyFive.edgeMarginDeg) := by
  refine ⟨?_, ?_, ?_, ?_, ?_⟩ <;> decide

/-- C4, amended: on an axis with `min < max` and `edgeMarginDeg ≥ 0` where
`edgeMarginDeg*2 < max - min` does not hold, the clamp range
`[min + edgeMarginDeg, max - edgeMarginDeg]` is empty when
`edgeMarginDeg*2 > max - min`, and is the single angle `min + edgeMarginDeg` when
`edgeMarginDeg*2 = max - min`. -/
theorem clampRange_when_invariant_fails (c : Config) (x : Int) :
    (c.panMin < c.panMax → 0 ≤ c.edgeMarginDeg →
      ¬ (c.edgeMarginDeg * 2 < c.panMax - c.panMin) →
      (c.panMax - c.panMin < c.edgeMarginDeg * 2 →
        ¬ (c.panMin + c.edgeMarginDeg ≤ x ∧ x ≤ c.panMax - c.edgeMarginDeg)) ∧
      (c.edgeMarginDeg * 2 = c.panMax - c.panMin →
        ((c.panMin + c.edgeMarginDeg ≤ x ∧ x ≤ c.panMax - c.edgeMarginDeg) ↔
          x = c.panMin + c.edgeMarginDeg))) ∧
    (c.tiltMin < c.tiltMax → 0 ≤ c.edgeMarginDeg →
      ¬ (c.edgeMarginDeg * 2 < c.tiltMax - c.tiltMin) →
      (c.tiltMax - c.tiltMin < c.edgeMarginDeg * 2 →
        ¬ (c.tiltMin + c.edgeMarginDeg ≤ x ∧ x ≤ c.tiltMax - c.edgeMarginDeg)) ∧
      (c.edgeMarginDeg * 2 = c.tiltMax - c.tiltMin →
        ((c.tiltMin + c.edgeMarginDeg ≤ x ∧ x ≤ c.tiltMax - c.edgeMarginDeg) ↔
          x = c.tiltMin + c.edgeMarginDeg))) := by
  refine ⟨fun _ _ _ => ⟨fun _ => ?_, fun _ => ⟨fun _ => ?_, fun _ => ?_⟩⟩,
    fun _ _ _ => ⟨fun _ => ?_, fun _ => ⟨fun _ => ?_, fun _ => ?_⟩⟩⟩ <;> omega

/-- Witness for the amended C4 at `marginFortyFive`, tilt axis, angle `90`: the
invariant fails by equality and the range is the single angle `45 + 45 = 90`. -/
theorem clampRange_when_invariant_fails_witness :
    (marginFortyFive.tiltMin + marginFortyFive.edgeMarginDeg ≤ 90 ∧
      90 ≤ marginFortyFive.tiltMax - marginFortyFive.edgeMarginDeg) ↔
    (90 : Int) = marginFortyFive.tiltMin + marginFortyFive.edgeMarginDeg :=
  ((clampRange_when_invariant_fails marginFortyFive 90).2 (by decide) (by decide)
    (by decide)).2 (by decide)

/-- C5: with the default bounds `panMin = 35`, `panMax = 145`, `edgeMarginDeg = 6`
the valid pan range is exactly `[41, 139]`: an integer angle lies in it iff
`41 ≤ x ≤ 139`; `40` and `140` are outside, `41` and `139` inside. -/
theorem defaultConfig_panRange :
    (defaultConfig.panMin = 35 ∧ defaultConfig.panMax = 145 ∧
      defaultConfig.edgeMarginDeg = 6) ∧
    (defaultConfig.panMin + defaultConfig.edgeMarginDeg = 41 ∧
      defaultConfig.panMax - defaultConfig.edgeMarginDeg = 139) ∧
    (∀ x : Int,
      (defaultConfig.panMin + defaultConfig.edgeMarginDeg ≤ x ∧
        x ≤ defaultConfig.panMax - defaultConfig.edgeMarginDeg) ↔ (41 ≤ x ∧ x ≤ 139)) ∧
    ¬ (defaultConfig.panMin + defaultConfig.edgeMarginDeg ≤ 40 ∧
        40 ≤ defaultConfig.panMax - defaultConfig.edgeMarginDeg) ∧
    ¬ (defaultConfig.panMin + defaultConfig.edgeMarginDeg ≤ 140 ∧
        140 ≤ defaultConfig.panMax - defaultConfig.edgeMarginDeg) ∧
    (defaultConfig.panMin + defaultConfig.edgeMarginDeg ≤ 41 ∧
        41 ≤ defaultConfig.panMax - defaultConfig.edgeMarginDeg) ∧
    (defaultConfig.panMin + defaultConfig.edgeMarginDeg ≤ 139 ∧
        139 ≤ defaultConfig.panMax - defaultConfig.edgeMarginDeg) := by
  refine ⟨⟨rfl, rfl, rfl⟩, ⟨by decide, by decide⟩, ?_, by decide, by decide, by decide,
    by decide⟩
  intro x
  have hlo : defaultConfig.panMin + defaultConfig.edgeMarginDeg = 41 := by decide
  have hhi : defaultConfig.panMax - defaultConfig.edgeMarginDeg = 139 := by decide
  rw [hlo, hhi]

/-- C6: for every valid `Config` and all candidate angles, `clamp` returns
`(pan', tilt')` with `panMin + margin ≤ pan' ≤ panMax - margin` and
`tiltMin + margin ≤ tilt' ≤ tiltMax - margin`. -/
theorem clamp_in_range (config : Config) (pan tilt : Int) (hvalid : config.Valid) :
    config.panMin + config.edgeMarginDeg ≤ (clamp pan tilt config).1 ∧
    (clamp pan tilt config).1 ≤ config.panMax - config.edgeMarginDeg ∧
    config.tiltMin + config.edgeMarginDeg ≤ (clamp pan tilt config).2 ∧
    (clamp pan tilt config).2 ≤ config.tiltMax - config.edgeMarginDeg := by
  obtain ⟨_, _, _, hp, ht, _, _⟩ := hvalid
  simp only [clamp]
  refine ⟨?_, ?_, ?_, ?_⟩ <;> omega

/-- Witness for C6 at the default `Config` and the out-of-range candidate
`(200, -10)`, which is clipped to `(139, 51)`. -/
theorem clamp_in_range_witness :
    defaultConfig.Valid ∧ clamp 200 (-10) defaultConfig = (139, 51) ∧
    (41 : Int) ≤ (clamp 200 (-10) defaultConfig).1 :=
  ⟨by decide, by decide, (clamp_in_range defaultConfig 200 (-10) (by decide)).1⟩

/-- C10: the default park position is inside the default clamp range on both axes:
`parkPan = 90` lies in `[41, 139]` and `parkTilt = 90` lies in `[51, 129]`, so
min/max clipping to these ranges (in either order of `min` and `max`) returns the
park position unchanged. -/
theorem defaultConfig_park_in_range :
    (defaultConfig.parkPan = 90 ∧ defaultConfig.parkTilt = 90) ∧
    (defaultConfig.panMin + defaultConfig.edgeMarginDeg = 41 ∧
      defaultConfig.panMax - defaultConfig.edgeMarginDeg = 139 ∧
      defaultConfig.tiltMin + defaultConfig.edgeMarginDeg = 51 ∧
      defaultConfig.tiltMax - defaultConfig.edgeMarginDeg = 129) ∧
    (defaultConfig.panMin + defaultConfig.edgeMarginDeg ≤ defaultConfig.parkPan ∧
      defaultConfig.parkPan ≤ defaultConfig.panMax - defaultConfig.edgeMarginDeg) ∧
    (defaultConfig.tiltMin + defaultConfig.edgeMarginDeg ≤ defaultConfig.parkTilt ∧
      defaultConfig.parkTilt ≤ defaultConfig.tiltMax - defaultConfig.edgeMarginDeg) ∧
    (min (max defaultConfig.parkPan (defaultConfig.panMin + defaultConfig.edgeMarginDeg))
        (defaultConfig.panMax - defaultConfig.edgeMarginDeg) = defaultConfig.parkPan ∧
      min (max defaultConfig.parkTilt (defaultConfig.tiltMin + defaultConfig.edgeMarginDeg))
        (defaultConfig.tiltMax - defaultConfig.edgeMarginDeg) = defaultConfig.parkTilt) ∧
    (max (min defaultConfig.parkPan (defaultConfig.panMax - defaultConfig.edgeMarginDeg))
        (defaultConfig.panMin + defaultConfig.edgeMarginDeg) = defaultConfig.parkPan ∧
      max (min defaultConfig.parkTilt (defaultConfig.tiltMax - defaultConfig.edgeMarginDeg))
        (defaultConfig.tiltMin + defaultConfig.edgeMarginDeg) = defaultConfig.parkTilt) := by
  refine ⟨⟨rfl, rfl⟩, ⟨?_, ?_, ?_, ?_⟩, ⟨?_, ?_⟩, ⟨?_, ?_⟩, ⟨?_, ?_⟩, ⟨?_, ?_⟩⟩ <;> decide

end Laserpunkt
